import Mathlib

/-!
# Verification of the telemetry HTTP gateway (`src/app.py`)

A shallow embedding of the Flask application in `src/app.py`: Python dicts
become association lists with Python's assignment semantics, each route
handler becomes a Lean function parameterised by the table-store operations
it may invoke (so that the arguments the handler passes to the store are
visible in theorems), and the `before_request` API-key gate plus Flask's URL
map become an explicit dispatch function.
-/

namespace App

/-- A Python dict with string keys and string values, represented as an
association list in insertion order (Python dicts preserve insertion order). -/
abbrev PyDict := List (String × String)

/-- Lookup in an association list: the value at the first matching key
(a well-formed Python dict has at most one entry per key). -/
def aget {β : Type} : List (String × β) → String → Option β
  | [], _ => none
  | (k', v) :: rest, k => if k' = k then some v else aget rest k

/-- Python dict assignment `d[k] = v`: replaces the value at the first
occurrence of `k` in place (keeping its position, as Python does), or
appends `(k, v)` at the end when `k` is absent. -/
def dassign : PyDict → String → String → PyDict
  | [], k, v => [(k, v)]
  | (k', v') :: rest, k, v =>
      if k' = k then (k', v) :: rest else (k', v') :: dassign rest k v

/-- A Python dict display `{<init>, **entries}`: start from `init` and assign
every pair of `entries` in order (later assignments to the same key win). -/
def dictLit (init : PyDict) (entries : PyDict) : PyDict :=
  entries.foldl (fun d kv => dassign d kv.1 kv.2) init

/-- The value the last assignment of key `k` in `entries` would leave behind:
the last occurrence of `k`, if any. -/
def dgetLast : PyDict → String → Option String
  | [], _ => none
  | (k', v) :: rest, k =>
      match dgetLast rest k with
      | some w => some w
      | none => if k' = k then some v else none

/-- Python truthiness of an optional string (`bool(x)` for `x` that is either
`None` or a `str`): `None` and `""` are falsy. -/
def pyTruthyStr : Option String → Bool
  | none => false
  | some s => s ≠ ""

/-- A JSON value appearing in one of the app's response objects. -/
inductive RVal where
  | vs (s : String)
  | vb (b : Bool)
  | vent (e : PyDict)
  | vdetails (d : List (String × Bool))
deriving DecidableEq

/-- A response body: a JSON object, a JSON array of entities (the list
endpoint), or no JSON body (Flask's HTML 404 page). -/
inductive RBody where
  | jobj (fields : List (String × RVal))
  | jarr (entities : List PyDict)
  | empty
deriving DecidableEq

/-- An HTTP response: status code and JSON body. -/
structure Response where
  status : Nat
  body : RBody
deriving DecidableEq

/-- Field lookup in an object response body. -/
def rbGet (b : RBody) (k : String) : Option RVal :=
  match b with
  | .jobj fields => aget fields k
  | _ => none

/-- The `401 {"error": "Unauthorized"}` response produced by the gate. -/
def unauthorizedResponse : Response :=
  ⟨401, .jobj [("error", .vs "Unauthorized")]⟩

/-- `check_api_key` (src/app.py lines 70-79): the `before_request` hook.
`none` means the request may proceed to a handler; `some r` short-circuits
with response `r`.  Only the exact path `"/healthz"` is exempt; otherwise the
request passes iff `API_KEY` is set and non-empty (`not API_KEY` is Python
truthiness) and the `x-api-key` header compares equal to it. -/
def check_api_key (apiKey : Option String) (path : String)
    (headerKey : Option String) : Option Response :=
  if path = "/healthz" then none
  else if !pyTruthyStr apiKey || headerKey ≠ apiKey then some unauthorizedResponse
  else none

/-- The `details` dict built by `healthz` (src/app.py lines 62-65):
`{"table_client": bool(table_client), "api_key_set": bool(API_KEY)}`. -/
def health_details (tableClient : Bool) (apiKey : Option String) :
    List (String × Bool) :=
  [("table_client", tableClient), ("api_key_set", pyTruthyStr apiKey)]

/-- `healthz` (src/app.py lines 59-67): status is 200 iff
`all(details.values())`, body is `{"ok": ..., "details": ...}`. -/
def healthz (tableClient : Bool) (apiKey : Option String) : Response :=
  let details := health_details tableClient apiKey
  ⟨if details.all (fun kv => kv.2) then 200 else 500,
    .jobj [("ok", .vb (details.all (fun kv => kv.2))),
           ("details", .vdetails details)]⟩

/-- The outcome of `request.get_json(force=True)` followed by use as a dict:
a JSON object; a parseable JSON value that is not an object (whose `.get`
raises `AttributeError` with message `errMsg`); or an unparsable body (where
`get_json(force=True)` raises `BadRequest` with message `errMsg`). -/
inductive ParsedBody where
  | obj (data : PyDict)
  | nonObject (errMsg : String)
  | unparsable (errMsg : String)

/-- The `500 {"error": "Storage not configured"}` response each handler
returns when `table_client is None`. -/
def storageNotConfigured : Response :=
  ⟨500, .jobj [("error", .vs "Storage not configured")]⟩

/-- `data.get("deviceId", "unknown")`: the partition key derived from the
request body in `create_entity` (line 88) and `update_entity` (line 154). -/
def derive_partition (data : PyDict) : String :=
  (aget data "deviceId").getD "unknown"

/-- The dict display `{"PartitionKey": partition, "RowKey": rowKey, **data}`
(src/app.py lines 89-93 and 155-159).  By Python semantics the `**data`
assignments run last, so a body field literally named `PartitionKey` or
`RowKey` overwrites the value while keeping the key's leading position. -/
def mkEntity (partition : String) (rowKey : String) (data : PyDict) : PyDict :=
  dictLit [("PartitionKey", partition), ("RowKey", rowKey)] data

/-- `create_entity` (src/app.py lines 82-99).  `store` is
`table_client.create_entity`; `freshRowKey` is the `str(uuid.uuid4())` drawn
in this call.  A non-object or unparsable body raises inside the `try` and is
caught by `except Exception`, as is a store failure. -/
def create_entity (tableClient : Bool) (body : ParsedBody)
    (freshRowKey : String) (store : PyDict → Except String Unit) : Response :=
  if tableClient = false then storageNotConfigured
  else
    match body with
    | .obj data =>
        let partition := derive_partition data
        let entity := mkEntity partition freshRowKey data
        match store entity with
        | .ok _ =>
            ⟨201, .jobj [("status", .vs "created"), ("entity", .vent entity)]⟩
        | .error e =>
            ⟨500, .jobj [("error", .vs "Failed to create entity"),
                         ("details", .vs e)]⟩
    | .nonObject e =>
        ⟨500, .jobj [("error", .vs "Failed to create entity"),
                     ("details", .vs e)]⟩
    | .unparsable e =>
        ⟨500, .jobj [("error", .vs "Failed to create entity"),
                     ("details", .vs e)]⟩

/-- The query `read_entities` issues against the table (src/app.py lines
107-116): `query_entities` with a `PartitionKey eq '<id>'` filter, or
`list_entities` for everything. -/
inductive StoreQuery where
  | filtered (deviceId : String)
  | all
deriving DecidableEq

/-- `if device_id:` — a missing parameter and an empty string both fall to
the `list_entities` branch (Python truthiness of the query parameter). -/
def read_query (deviceId : Option String) : StoreQuery :=
  if pyTruthyStr deviceId then .filtered (deviceId.getD "") else .all

/-- A failure raised by the store during the list query: the
`TableServiceError` handler or the generic `Exception` handler catches it. -/
inductive StoreFailure where
  | tableService (msg : String)
  | other (msg : String)

/-- The candidate timestamp field names, in priority order (line 124). -/
def tsCandidates : List String := ["timestamp", "createdAt", "TimeGenerated", "time"]

/-- `any(candidate in e for e in entities)`: does any retrieved record carry
field `c`? -/
def tsPresent (entities : List PyDict) (c : String) : Bool :=
  entities.any (fun e => (aget e c).isSome)

/-- Lines 123-127: the first candidate (in priority order) present in at
least one record, if any. -/
def pickTsField (entities : List PyDict) : Option String :=
  tsCandidates.find? (fun c => tsPresent entities c)

/-- The sort key `x.get(ts_field) or ""` of line 130: the field's value, or
`""` when the field is absent (with string-valued fields, a falsy present
value is the empty string, which `or ""` maps to itself). -/
def tsKey (f : String) (e : PyDict) : String :=
  (aget e f).getD ""

/-- Python's `<` on strings: lexicographic comparison of the code-point
sequences. -/
def charListLt : List Char → List Char → Bool
  | _, [] => false
  | [], _ :: _ => true
  | c :: cs, d :: ds =>
      if c.toNat < d.toNat then true
      else if d.toNat < c.toNat then false
      else charListLt cs ds

/-- `a < b` for Python strings, on their code points. -/
def strLt (a b : String) : Bool :=
  charListLt a.data b.data

/-- The ordering `entities.sort(key=..., reverse=True)` establishes:
`a` precedes `b` when `a`'s key is not less than `b`'s key (descending by
Python's code-point-lexicographic string order). -/
def tsRel (f : String) (a b : PyDict) : Prop :=
  strLt (tsKey f a) (tsKey f b) = false

instance (f : String) : DecidableRel (tsRel f) :=
  fun a b => inferInstanceAs (Decidable (strLt (tsKey f a) (tsKey f b) = false))

theorem charListLt_nil_right (a : List Char) : charListLt a [] = false := by
  cases a <;> rfl

theorem charListLt_false_total :
    ∀ a b : List Char, charListLt a b = false ∨ charListLt b a = false
  | [], [] => Or.inl rfl
  | [], _ :: _ => Or.inr rfl
  | _ :: _, [] => Or.inl rfl
  | x :: xs, y :: ys => by
      rcases Nat.lt_trichotomy x.toNat y.toNat with h | h | h
      · right
        simp only [charListLt]
        rw [if_neg (Nat.lt_asymm h), if_pos h]
      · rcases charListLt_false_total xs ys with ih | ih
        · left
          simp only [charListLt]
          rw [if_neg (by omega), if_neg (by omega)]
          exact ih
        · right
          simp only [charListLt]
          rw [if_neg (by omega), if_neg (by omega)]
          exact ih
      · left
        simp only [charListLt]
        rw [if_neg (Nat.lt_asymm h), if_pos h]

theorem charListLt_false_trans :
    ∀ a b c : List Char, charListLt a b = false → charListLt b c = false →
      charListLt a c = false
  | a, _, [], _, _ => charListLt_nil_right a
  | _, [], _ :: _, _, hbc => by simp [charListLt] at hbc
  | [], _ :: _, _ :: _, hab, _ => by simp [charListLt] at hab
  | x :: xs, y :: ys, z :: zs, hab, hbc => by
      simp only [charListLt] at hab hbc ⊢
      by_cases hxy : x.toNat < y.toNat
      · rw [if_pos hxy] at hab
        exact absurd hab (by simp)
      · rw [if_neg hxy] at hab
        by_cases hyz : y.toNat < z.toNat
        · rw [if_pos hyz] at hbc
          exact absurd hbc (by simp)
        · rw [if_neg hyz] at hbc
          by_cases hyx : y.toNat < x.toNat
          · have hzx : z.toNat < x.toNat := by omega
            rw [if_neg (Nat.lt_asymm hzx), if_pos hzx]
          · rw [if_neg hyx] at hab
            by_cases hzy : z.toNat < y.toNat
            · have hzx : z.toNat < x.toNat := by omega
              rw [if_neg (Nat.lt_asymm hzx), if_pos hzx]
            · rw [if_neg hzy] at hbc
              rw [if_neg (by omega), if_neg (by omega)]
              exact charListLt_false_trans xs ys zs hab hbc

instance (f : String) : IsTotal PyDict (tsRel f) :=
  ⟨fun a b => charListLt_false_total (tsKey f a).data (tsKey f b).data⟩

instance (f : String) : IsTrans PyDict (tsRel f) :=
  ⟨fun a b c hab hbc =>
    charListLt_false_trans (tsKey f a).data (tsKey f b).data (tsKey f c).data hab hbc⟩

/-- Lines 121-130: pick the timestamp field and, when one is found, sort
descending by it.  `List.insertionSort` with `tsRel f` inserts each element
after all earlier elements whose key is `≥` its own, which is exactly the
stable descending order `list.sort(key=..., reverse=True)` produces. -/
def sort_entities (entities : List PyDict) : List PyDict :=
  match pickTsField entities with
  | some f => List.insertionSort (tsRel f) entities
  | none => entities

/-- Digit run to number, for `int(top)`. -/
def digitsToNat (cs : List Char) : Nat :=
  cs.foldl (fun acc c => acc * 10 + (c.toNat - 48)) 0

/-- Python's `int(s)` for a `str` argument, as used on the `top` query
parameter (line 134): optional surrounding whitespace, an optional single
sign, then a non-empty run of decimal digits; anything else raises
`ValueError` (`none` here).  PEP 515 underscore separators are not
modelled. -/
def pyParseInt (s : String) : Option Int :=
  let core := ((s.data.dropWhile Char.isWhitespace).reverse.dropWhile
      Char.isWhitespace).reverse
  match core with
  | [] => none
  | c :: rest =>
      let signed : Bool × List Char :=
        if c = '-' then (true, rest)
        else if c = '+' then (false, rest)
        else (false, c :: rest)
      if signed.2 ≠ [] ∧ signed.2.all Char.isDigit then
        let n : Int := Int.ofNat (digitsToNat signed.2)
        some (if signed.1 then -n else n)
      else none

/-- Python's slice `l[:n]` for an `int` `n`: for `n ≥ 0` the first `n`
elements; for `n < 0` the stop index is `max(0, len(l) + n)`, i.e. the last
`|n|` elements are dropped. -/
def pySliceUpTo (n : Int) (l : List PyDict) : List PyDict :=
  if 0 ≤ n then l.take n.toNat else l.take (l.length - (-n).toNat)

/-- Lines 131-137: `if top:` (Python truthiness of the raw parameter), then
`entities[:int(top)]` with `ValueError` silently ignored. -/
def applyTop (top : Option String) (entities : List PyDict) : List PyDict :=
  match top with
  | none => entities
  | some t =>
      if t = "" then entities
      else
        match pyParseInt t with
        | some n => pySliceUpTo n entities
        | none => entities

/-- `read_entities` (src/app.py lines 102-145).  `fetch` performs the store
query; a `TableServiceError` and any other exception map to the two distinct
500 bodies of lines 140-145. -/
def read_entities (tableClient : Bool) (deviceId : Option String)
    (top : Option String)
    (fetch : StoreQuery → Except StoreFailure (List PyDict)) : Response :=
  if tableClient = false then storageNotConfigured
  else
    match fetch (read_query deviceId) with
    | .ok entities => ⟨200, .jarr (applyTop top (sort_entities entities))⟩
    | .error (.tableService m) =>
        ⟨500, .jobj [("error", .vs "Storage error"), ("details", .vs m)]⟩
    | .error (.other m) =>
        ⟨500, .jobj [("error", .vs "Failed to query data"), ("details", .vs m)]⟩

/-- `update_entity` (src/app.py lines 148-165).  `merge` is
`table_client.update_entity(·, mode="MERGE")`; the row key comes from the
path. -/
def update_entity (tableClient : Bool) (body : ParsedBody) (rowKey : String)
    (merge : PyDict → Except String Unit) : Response :=
  if tableClient = false then storageNotConfigured
  else
    match body with
    | .obj data =>
        let partitionKey := derive_partition data
        let entity := mkEntity partitionKey rowKey data
        match merge entity with
        | .ok _ =>
            ⟨200, .jobj [("status", .vs "updated"), ("entity", .vent entity)]⟩
        | .error e =>
            ⟨500, .jobj [("error", .vs "Failed to update entity"),
                         ("details", .vs e)]⟩
    | .nonObject e =>
        ⟨500, .jobj [("error", .vs "Failed to update entity"),
                     ("details", .vs e)]⟩
    | .unparsable e =>
        ⟨500, .jobj [("error", .vs "Failed to update entity"),
                     ("details", .vs e)]⟩

/-- `request.args.get("deviceId", "unknown")` in `delete_entity` (line 173). -/
def delete_partition (deviceIdArg : Option String) : String :=
  deviceIdArg.getD "unknown"

/-- `delete_entity` (src/app.py lines 168-179).  `del0` is
`table_client.delete_entity`, taking partition key then row key. -/
def delete_entity (tableClient : Bool) (deviceIdArg : Option String)
    (rowKey : String) (del0 : String → String → Except String Unit) : Response :=
  if tableClient = false then storageNotConfigured
  else
    match del0 (delete_partition deviceIdArg) rowKey with
    | .ok _ => ⟨200, .jobj [("status", .vs "deleted")]⟩
    | .error e =>
        ⟨500, .jobj [("error", .vs "Failed to delete entity"),
                     ("details", .vs e)]⟩

/-- The outcome of matching a request against the app's URL map. -/
inductive RouteMatch where
  | health
  | createT
  | listT
  | updateT (rowKey : String)
  | deleteT (rowKey : String)
  | notFound
deriving DecidableEq

/-- Flask's `<row_key>` path converter on `/telemetry/<row_key>`: a
non-empty segment containing no slash. -/
def telemetryRowKey (path : String) : Option String :=
  if path.startsWith "/telemetry/" then
    let rk := path.drop 11
    if rk ≠ "" ∧ ¬rk.contains '/' then some rk else none
  else none

/-- The app's URL map: the five registered routes; everything else is a 404. -/
def route (method : String) (path : String) : RouteMatch :=
  if path = "/healthz" ∧ method = "GET" then .health
  else if path = "/telemetry" ∧ method = "POST" then .createT
  else if path = "/telemetry" ∧ method = "GET" then .listT
  else
    match telemetryRowKey path with
    | some rk =>
        if method = "PUT" then .updateT rk
        else if method = "DELETE" then .deleteT rk
        else .notFound
    | none => .notFound

/-- Module-level state the handlers read: `API_KEY` and whether
`table_client` is not `None`. -/
structure AppState where
  apiKey : Option String
  tableClient : Bool

/-- An inbound HTTP request, restricted to the parts the app inspects. -/
structure HttpRequest where
  method : String
  path : String
  headerKey : Option String
  body : ParsedBody
  argDeviceId : Option String
  argTop : Option String

/-- The four `table_client` methods the handlers call. -/
structure TableClientOps where
  create : PyDict → Except String Unit
  merge : PyDict → Except String Unit
  del0 : String → String → Except String Unit
  query : StoreQuery → Except StoreFailure (List PyDict)

/-- Full request processing: the `before_request` gate (which Flask runs
before raising any routing 404), then dispatch through the URL map. -/
def app_dispatch (st : AppState) (req : HttpRequest) (freshRowKey : String)
    (ops : TableClientOps) : Response :=
  match check_api_key st.apiKey req.path req.headerKey with
  | some r => r
  | none =>
      match route req.method req.path with
      | .health => healthz st.tableClient st.apiKey
      | .createT => create_entity st.tableClient req.body freshRowKey ops.create
      | .listT => read_entities st.tableClient req.argDeviceId req.argTop ops.query
      | .updateT rk => update_entity st.tableClient req.body rk ops.merge
      | .deleteT rk => delete_entity st.tableClient req.argDeviceId rk ops.del0
      | .notFound => ⟨404, .empty⟩

/-! ## Dictionary lemmas -/

theorem aget_dassign (d : PyDict) (k v k' : String) :
    aget (dassign d k v) k' = if k = k' then some v else aget d k' := by
  induction d with
  | nil => simp only [dassign, aget]
  | cons hd tl ih =>
      obtain ⟨k₀, v₀⟩ := hd
      by_cases h0 : k₀ = k
      · subst h0
        simp only [dassign, if_pos rfl, aget]
        by_cases h1 : k₀ = k' <;> simp [h1]
      · simp only [dassign, if_neg h0, aget]
        by_cases h1 : k₀ = k'
        · subst h1
          have hkk : ¬k = k₀ := fun e => h0 e.symm
          simp [hkk]
        · simp [h1, ih]

theorem aget_dictLit (entries : PyDict) :
    ∀ (init : PyDict) (k : String),
      aget (dictLit init entries) k =
        match dgetLast entries k with
        | some v => some v
        | none => aget init k := by
  induction entries with
  | nil => intro init k; rfl
  | cons hd tl ih =>
      intro init k
      obtain ⟨k₀, v₀⟩ := hd
      show aget (dictLit (dassign init k₀ v₀) tl) k = _
      rw [ih]
      cases h : dgetLast tl k with
      | some w => simp [dgetLast, h]
      | none =>
          simp only [dgetLast, h, aget_dassign]
          by_cases h0 : k₀ = k <;> simp [h0]

theorem dgetLast_eq_none_of_not_mem {d : PyDict} {k : String}
    (h : k ∉ d.map Prod.fst) : dgetLast d k = none := by
  induction d with
  | nil => rfl
  | cons hd tl ih =>
      obtain ⟨k₀, v₀⟩ := hd
      simp only [List.map_cons, List.mem_cons, not_or] at h
      simp only [dgetLast, ih h.2]
      rw [if_neg (fun e => h.1 e.symm)]

theorem dgetLast_of_nodup (d : PyDict) (hnd : (d.map Prod.fst).Nodup)
    (k : String) : dgetLast d k = aget d k := by
  induction d with
  | nil => rfl
  | cons hd tl ih =>
      obtain ⟨k₀, v₀⟩ := hd
      simp only [List.map_cons, List.nodup_cons] at hnd
      by_cases h0 : k₀ = k
      · subst h0
        simp [dgetLast, dgetLast_eq_none_of_not_mem hnd.1, aget]
      · simp only [dgetLast, aget, if_neg h0, ih hnd.2]
        cases aget tl k <;> rfl

theorem aget_mkEntity (p rk : String) (data : PyDict) (k : String) :
    aget (mkEntity p rk data) k =
      match dgetLast data k with
      | some v => some v
      | none =>
          if "PartitionKey" = k then some p
          else if "RowKey" = k then some rk
          else none := by
  rw [mkEntity, aget_dictLit]
  cases dgetLast data k <;> rfl

/-! ## Claim theorems -/

/-- C1 (counterexample): a create whose body itself carries a field literally
named `PartitionKey` does NOT store the service-derived partition key: the
dict display `{"PartitionKey": partition, "RowKey": ..., **data}` lets the
`**data` assignment win, so the stored and echoed entity carries the body's
value `"attacker"`, not the derived `"unknown"`. -/
theorem create_key_precedence_counterexample :
    create_entity true (ParsedBody.obj [("PartitionKey", "attacker")]) "rk-1"
        (fun _ => Except.ok ())
      = ⟨201, .jobj [("status", .vs "created"),
                     ("entity", .vent [("PartitionKey", "attacker"), ("RowKey", "rk-1")])]⟩
    ∧ derive_partition [("PartitionKey", "attacker")] = "unknown"
    ∧ aget [("PartitionKey", "attacker"), ("RowKey", "rk-1")] "PartitionKey"
        = some "attacker"
    ∧ (some "attacker" : Option String) ≠ some "unknown" := by
  refine ⟨rfl, rfl, rfl, by decide⟩

/-- C1 (amended): on create, the stored and echoed record is the union of
the derived `PartitionKey`, the fresh `RowKey`, and all body fields, with
the BODY's fields taking precedence when the body defines a field literally
named `PartitionKey` or `RowKey`; the service-derived values are used only
when the body lacks those keys.  The first conjunct also pins the entity the
handler passes to the store and echoes in the 201 response. -/
theorem create_entity_body_precedence (data : PyDict) (rk : String)
    (store : PyDict → Except String Unit)
    (hnd : (data.map Prod.fst).Nodup) :
    create_entity true (ParsedBody.obj data) rk store =
      (match store (mkEntity (derive_partition data) rk data) with
       | .ok _ =>
           ⟨201, .jobj [("status", .vs "created"),
                        ("entity", .vent (mkEntity (derive_partition data) rk data))]⟩
       | .error e =>
           ⟨500, .jobj [("error", .vs "Failed to create entity"),
                        ("details", .vs e)]⟩)
    ∧ (∀ k v, aget data k = some v →
        aget (mkEntity (derive_partition data) rk data) k = some v)
    ∧ (aget data "PartitionKey" = none →
        aget (mkEntity (derive_partition data) rk data) "PartitionKey"
          = some (derive_partition data))
    ∧ (aget data "RowKey" = none →
        aget (mkEntity (derive_partition data) rk data) "RowKey" = some rk)
    ∧ (∀ k, k ≠ "PartitionKey" → k ≠ "RowKey" → aget data k = none →
        aget (mkEntity (derive_partition data) rk data) k = none) := by
  refine ⟨rfl, ?_, ?_, ?_, ?_⟩
  · intro k v h
    rw [aget_mkEntity, dgetLast_of_nodup data hnd, h]
  · intro h
    rw [aget_mkEntity, dgetLast_of_nodup data hnd, h]
    rfl
  · intro h
    rw [aget_mkEntity, dgetLast_of_nodup data hnd, h]
    rfl
  · intro k hk1 hk2 h
    rw [aget_mkEntity, dgetLast_of_nodup data hnd, h]
    simp only []
    rw [if_neg (fun e => hk1 e.symm), if_neg (fun e => hk2 e.symm)]

/-- C1 (witness for the amended theorem at a concrete input). -/
theorem create_entity_body_precedence_witness :
    (([("deviceId", "dev-7"), ("PartitionKey", "evil")] : PyDict).map
        Prod.fst).Nodup
    ∧ aget (mkEntity (derive_partition [("deviceId", "dev-7"), ("PartitionKey", "evil")])
        "rk-9" [("deviceId", "dev-7"), ("PartitionKey", "evil")]) "PartitionKey"
        = some "evil" :=
  ⟨by decide,
   (create_entity_body_precedence [("deviceId", "dev-7"), ("PartitionKey", "evil")]
      "rk-9" (fun _ => Except.ok ()) (by decide)).2.1 "PartitionKey" "evil" rfl⟩

/-- C2 (counterexample): an unparsable body is NOT treated as an empty
object; `request.get_json(force=True)` raises, the `except` turns it into a
500 error response, so the request is rejected rather than stored with the
default partition key. -/
theorem malformed_body_rejected_counterexample :
    (create_entity true (ParsedBody.unparsable "Failed to decode JSON object")
        "rk-1" (fun _ => Except.ok ())).status = 500
    ∧ rbGet (create_entity true (ParsedBody.unparsable "Failed to decode JSON object")
        "rk-1" (fun _ => Except.ok ())).body "error"
        = some (.vs "Failed to create entity")
    ∧ create_entity true (ParsedBody.unparsable "Failed to decode JSON object")
        "rk-1" (fun _ => Except.ok ())
        ≠ create_entity true (ParsedBody.obj []) "rk-1" (fun _ => Except.ok ()) := by
  refine ⟨rfl, rfl, by decide⟩

/-- C2 (amended): a create or update request whose body is unparsable JSON
or a non-object JSON value does not crash the process, but it is rejected:
the exception raised while parsing (or calling `.get` on a non-dict) is
caught and converted into a 500 response with `error` and `details` keys;
the body is never treated as an empty object. -/
theorem malformed_body_yields_500 (m rk : String)
    (store merge : PyDict → Except String Unit) :
    create_entity true (ParsedBody.unparsable m) rk store
      = ⟨500, .jobj [("error", .vs "Failed to create entity"), ("details", .vs m)]⟩
    ∧ create_entity true (ParsedBody.nonObject m) rk store
      = ⟨500, .jobj [("error", .vs "Failed to create entity"), ("details", .vs m)]⟩
    ∧ update_entity true (ParsedBody.unparsable m) rk merge
      = ⟨500, .jobj [("error", .vs "Failed to update entity"), ("details", .vs m)]⟩
    ∧ update_entity true (ParsedBody.nonObject m) rk merge
      = ⟨500, .jobj [("error", .vs "Failed to update entity"), ("details", .vs m)]⟩ := by
  exact ⟨rfl, rfl, rfl, rfl⟩

theorem check_api_key_cases (ak : Option String) (p : String)
    (h : Option String) :
    check_api_key ak p h = none ∨ check_api_key ak p h = some unauthorizedResponse := by
  unfold check_api_key
  split_ifs <;> simp

theorem check_api_key_none_iff (ak : Option String) (p : String)
    (h : Option String) (hp : p ≠ "/healthz") :
    check_api_key ak p h = none ↔ ∃ k, ak = some k ∧ k ≠ "" ∧ h = some k := by
  unfold check_api_key
  rw [if_neg hp]
  cases ak with
  | none => simp [pyTruthyStr]
  | some a =>
      by_cases ha : a = ""
      · subst ha; simp [pyTruthyStr]
      · by_cases hh : h = some a
        · subst hh; simp [pyTruthyStr, ha]
        · simp only [pyTruthyStr]
          rw [if_pos]
          · simp only [reduceCtorEq, false_iff, not_exists, not_and]
            intro k hk
            injection hk with hk
            subst hk
            exact fun _ hcon => hh hcon
          · simp [hh, ha]

/-- C3: the auth gate fails closed.  For a request to a non-exempt path, if
the configured key is unset or empty, or the `x-api-key` header is missing
or differs from it, the whole dispatch returns the 401 response — no handler
logic contributes (the table-store operations and handler state are
universally quantified and unused); the gate lets the request proceed
exactly when the key is configured non-empty and the header equals it. -/
theorem auth_fails_closed (st : AppState) (req : HttpRequest) (rk : String)
    (ops : TableClientOps) (hp : req.path ≠ "/healthz") :
    ((¬∃ k, st.apiKey = some k ∧ k ≠ "" ∧ req.headerKey = some k) →
        app_dispatch st req rk ops = unauthorizedResponse)
    ∧ (check_api_key st.apiKey req.path req.headerKey = none ↔
        ∃ k, st.apiKey = some k ∧ k ≠ "" ∧ req.headerKey = some k) := by
  refine ⟨?_, check_api_key_none_iff _ _ _ hp⟩
  intro hne
  rcases check_api_key_cases st.apiKey req.path req.headerKey with h | h
  · exact absurd ((check_api_key_none_iff _ _ _ hp).mp h) hne
  · unfold app_dispatch
    rw [h]

/-- C3 (witness): a request to `/telemetry` with no header, against an app
with no configured key, is answered 401 by the full dispatch. -/
theorem auth_fails_closed_witness :
    ("/telemetry" : String) ≠ "/healthz"
    ∧ app_dispatch ⟨none, true⟩ ⟨"GET", "/telemetry", none, ParsedBody.obj [], none, none⟩
        "rk-1" ⟨fun _ => Except.ok (), fun _ => Except.ok (),
                fun _ _ => Except.ok (), fun _ => Except.ok []⟩
        = unauthorizedResponse :=
  ⟨by decide,
   (auth_fails_closed ⟨none, true⟩ ⟨"GET", "/telemetry", none, ParsedBody.obj [], none, none⟩
      "rk-1" ⟨fun _ => Except.ok (), fun _ => Except.ok (),
              fun _ _ => Except.ok (), fun _ => Except.ok []⟩ (by decide)).1 (by simp)⟩

/-- C6 (counterexample): the root path `/` is NOT exempt from the auth gate:
with a configured secret and no `x-api-key` header, a request to `/` is
rejected with the 401 response (and the URL map has no route for `GET /`
at all). -/
theorem root_requires_key_counterexample :
    check_api_key (some "secret") "/" none = some unauthorizedResponse
    ∧ app_dispatch ⟨some "secret", true⟩ ⟨"GET", "/", none, ParsedBody.obj [], none, none⟩
        "rk-1" ⟨fun _ => Except.ok (), fun _ => Except.ok (),
                fun _ _ => Except.ok (), fun _ => Except.ok []⟩
        = unauthorizedResponse := by
  refine ⟨by decide, by decide⟩

/-- C6 (amended): the auth gate exempts exactly one path, `/healthz`: every
request to `/healthz` passes the gate regardless of configuration or header,
while a request to any other path — including `/` — with no `x-api-key`
header is rejected with 401; moreover no route is registered for `GET /`,
so there is no root info endpoint. -/
theorem auth_exempts_only_healthz (ak h : Option String) (p : String)
    (hp : p ≠ "/healthz") :
    check_api_key ak "/healthz" h = none
    ∧ check_api_key ak p none = some unauthorizedResponse
    ∧ route "GET" "/" = RouteMatch.notFound := by
  refine ⟨by unfold check_api_key; rw [if_pos rfl], ?_, by decide⟩
  unfold check_api_key
  rw [if_neg hp]
  cases ak with
  | none => simp [pyTruthyStr]
  | some a =>
      by_cases ha : a = ""
      · subst ha; simp [pyTruthyStr]
      · simp [pyTruthyStr, ha]

/-- C6 (witness for the amended theorem at a concrete path). -/
theorem auth_exempts_only_healthz_witness :
    ("/" : String) ≠ "/healthz"
    ∧ check_api_key (some "secret") "/healthz" none = none
    ∧ check_api_key (some "secret") "/" none = some unauthorizedResponse
    ∧ route "GET" "/" = RouteMatch.notFound :=
  ⟨by decide, (auth_exempts_only_healthz (some "secret") none "/" (by decide)).1,
   (auth_exempts_only_healthz (some "secret") none "/" (by decide)).2.1,
   (auth_exempts_only_healthz (some "secret") none "/" (by decide)).2.2⟩

/-- C7: with no table client, every data handler returns the fixed
`500 {"error": "Storage not configured"}` response without consulting the
store (the store operations are universally quantified and unused); and
every store failure is caught and mapped to a 500 response carrying `error`
and `details` keys. -/
theorem backend_failure_to_500 (body : ParsedBody) (data : PyDict)
    (rk m : String) (dev top : Option String)
    (store merge : PyDict → Except String Unit)
    (del0 : String → String → Except String Unit)
    (fetch : StoreQuery → Except StoreFailure (List PyDict)) :
    create_entity false body rk store = storageNotConfigured
    ∧ read_entities false dev top fetch = storageNotConfigured
    ∧ update_entity false body rk merge = storageNotConfigured
    ∧ delete_entity false dev rk del0 = storageNotConfigured
    ∧ storageNotConfigured.status = 500
    ∧ rbGet storageNotConfigured.body "error" = some (.vs "Storage not configured")
    ∧ create_entity true (ParsedBody.obj data) rk (fun _ => Except.error m)
        = ⟨500, .jobj [("error", .vs "Failed to create entity"), ("details", .vs m)]⟩
    ∧ update_entity true (ParsedBody.obj data) rk (fun _ => Except.error m)
        = ⟨500, .jobj [("error", .vs "Failed to update entity"), ("details", .vs m)]⟩
    ∧ delete_entity true dev rk (fun _ _ => Except.error m)
        = ⟨500, .jobj [("error", .vs "Failed to delete entity"), ("details", .vs m)]⟩
    ∧ read_entities true dev top (fun _ => Except.error (.tableService m))
        = ⟨500, .jobj [("error", .vs "Storage error"), ("details", .vs m)]⟩
    ∧ read_entities true dev top (fun _ => Except.error (.other m))
        = ⟨500, .jobj [("error", .vs "Failed to query data"), ("details", .vs m)]⟩ :=
  ⟨rfl, rfl, rfl, rfl, rfl, rfl, rfl, rfl, rfl, rfl, rfl⟩

/-- C8: whenever the client supplies no `deviceId` — absent body field on
create/update, absent query parameter on delete — the derived partition key
is the literal `"unknown"`, and the delete handler passes exactly
`"unknown"` as the partition-key argument of the store's delete call. -/
theorem default_partition_unknown (data : PyDict) (rk : String)
    (del0 : String → String → Except String Unit)
    (hd : aget data "deviceId" = none) :
    derive_partition data = "unknown"
    ∧ delete_partition none = "unknown"
    ∧ delete_entity true none rk del0 =
        (match del0 "unknown" rk with
         | .ok _ => ⟨200, .jobj [("status", .vs "deleted")]⟩
         | .error e =>
             ⟨500, .jobj [("error", .vs "Failed to delete entity"),
                          ("details", .vs e)]⟩) := by
  refine ⟨?_, rfl, rfl⟩
  unfold derive_partition
  rw [hd]
  rfl

/-- C8 (witness): a body with only a `temp` field derives partition
`"unknown"`. -/
theorem default_partition_unknown_witness :
    aget [("temp", "20")] "deviceId" = none
    ∧ derive_partition [("temp", "20")] = "unknown" :=
  ⟨rfl, (default_partition_unknown [("temp", "20")] "rk-1"
      (fun _ _ => Except.ok ()) rfl).1⟩

/-- C9: the health endpoint's overall readiness is the conjunction of its
two detail flags, recomputed from the current state; the status is 200
exactly when every flag is true and 500 otherwise, and the JSON body always
carries the readiness flag under `"ok"` and the per-detail flags under
`"details"`. -/
theorem healthz_ready_iff (tc : Bool) (ak : Option String) :
    ((healthz tc ak).status = 200 ↔
        (health_details tc ak).all (fun kv => kv.2) = true)
    ∧ ((healthz tc ak).status = 200 ∨ (healthz tc ak).status = 500)
    ∧ rbGet (healthz tc ak).body "ok"
        = some (.vb ((health_details tc ak).all (fun kv => kv.2)))
    ∧ rbGet (healthz tc ak).body "details"
        = some (.vdetails (health_details tc ak))
    ∧ (health_details tc ak).all (fun kv => kv.2) = (tc && pyTruthyStr ak) := by
  cases hall : (health_details tc ak).all (fun kv => kv.2) with
  | false =>
      refine ⟨by simp [healthz, hall], by simp [healthz, hall], ?_, ?_, ?_⟩
      · simp [healthz, hall, rbGet, aget]
      · simp [healthz, hall, rbGet, aget]
      · rw [← hall]; simp [health_details]
  | true =>
      refine ⟨by simp [healthz, hall], by simp [healthz, hall], ?_, ?_, ?_⟩
      · simp [healthz, hall, rbGet, aget]
      · simp [healthz, hall, rbGet, aget]
      · rw [← hall]; simp [health_details]

/-- C9 (witness at a concrete ready state). -/
theorem healthz_ready_iff_witness :
    ((healthz true (some "key")).status = 200 ↔
        (health_details true (some "key")).all (fun kv => kv.2) = true)
    ∧ (health_details true (some "key")).all (fun kv => kv.2)
        = (true && pyTruthyStr (some "key")) :=
  ⟨(healthz_ready_iff true (some "key")).1,
   (healthz_ready_iff true (some "key")).2.2.2.2⟩

/-- C10: a `deviceId` query parameter equal to the empty string falls into
the same `list_entities` branch as an absent parameter (`if device_id:` is
falsy for `""`), so the service requests all records — never a
partition-filtered query for the empty partition key. -/
theorem empty_deviceId_lists_all (tc : Bool) (top : Option String)
    (fetch : StoreQuery → Except StoreFailure (List PyDict)) :
    read_entities tc (some "") top fetch = read_entities tc none top fetch
    ∧ read_query (some "") = StoreQuery.all
    ∧ read_query none = StoreQuery.all
    ∧ StoreQuery.all ≠ StoreQuery.filtered "" :=
  ⟨rfl, rfl, rfl, by decide⟩

/-- C10 (witness at a concrete state and fetch function). -/
theorem empty_deviceId_lists_all_witness :
    read_entities true (some "") none (fun _ => Except.ok [])
      = read_entities true none none (fun _ => Except.ok [])
    ∧ read_query (some "") = StoreQuery.all :=
  ⟨(empty_deviceId_lists_all true none (fun _ => Except.ok [])).1,
   (empty_deviceId_lists_all true none (fun _ => Except.ok [])).2.1⟩

/-- C5 (counterexample): `top=-1` parses as the integer `-1`, but the result
is NOT "the first `-1` entries" (an empty list, reading "first N" with the
usual clamping): Python's slice `entities[:-1]` drops the last element, so
two records become one. -/
theorem top_negative_counterexample :
    pyParseInt "-1" = some (-1)
    ∧ applyTop (some "-1") [[("RowKey", "a")], [("RowKey", "b")]]
        = [[("RowKey", "a")]]
    ∧ applyTop (some "-1") [[("RowKey", "a")], [("RowKey", "b")]]
        ≠ List.take (Int.toNat (-1)) [[("RowKey", "a")], [("RowKey", "b")]] := by
  refine ⟨by decide, by decide, by decide⟩

/-- C5 (amended): an absent `top` and a `top` that does not parse as an
integer (the empty string included) are ignored silently, leaving the full
list; a `top` parsing as a nonnegative integer `N` truncates to the first
`N` entries; a `top` parsing as a negative integer `N` follows Python's
slice semantics and keeps the first `length - |N|` entries (all but the
last `|N|`, empty when `|N| ≥ length`). -/
theorem top_truncation (es : List PyDict) (t : String) :
    applyTop none es = es
    ∧ (pyParseInt t = none → applyTop (some t) es = es)
    ∧ (∀ n : Int, pyParseInt t = some n → 0 ≤ n →
        applyTop (some t) es = es.take n.toNat)
    ∧ (∀ n : Int, pyParseInt t = some n → n < 0 →
        applyTop (some t) es = es.take (es.length - (-n).toNat)) := by
  have hempty : pyParseInt "" = none := rfl
  refine ⟨rfl, ?_, ?_, ?_⟩
  · intro h
    by_cases ht : t = "" <;> simp [applyTop, ht, h]
  · intro n h hn
    have ht : t ≠ "" := by
      intro e; rw [e, hempty] at h; exact Option.noConfusion h
    simp [applyTop, ht, h, pySliceUpTo, hn]
  · intro n h hn
    have ht : t ≠ "" := by
      intro e; rw [e, hempty] at h; exact Option.noConfusion h
    simp [applyTop, ht, h, pySliceUpTo, not_le.mpr hn]

/-- C5 (witness): `top=2` on three records keeps the first two. -/
theorem top_truncation_witness :
    pyParseInt "2" = some 2
    ∧ (0 : Int) ≤ 2
    ∧ applyTop (some "2") [[("a", "1")], [("a", "2")], [("a", "3")]]
        = List.take ((2 : Int)).toNat [[("a", "1")], [("a", "2")], [("a", "3")]] :=
  ⟨by decide, by decide,
   (top_truncation [[("a", "1")], [("a", "2")], [("a", "3")]] "2").2.2.1 2
      (by decide) (by decide)⟩

theorem pickTsField_eq (es : List PyDict) :
    pickTsField es =
      (if tsPresent es "timestamp" then some "timestamp"
       else if tsPresent es "createdAt" then some "createdAt"
       else if tsPresent es "TimeGenerated" then some "TimeGenerated"
       else if tsPresent es "time" then some "time"
       else none) := by
  cases h1 : tsPresent es "timestamp" <;>
  cases h2 : tsPresent es "createdAt" <;>
  cases h3 : tsPresent es "TimeGenerated" <;>
  cases h4 : tsPresent es "time" <;>
  simp [pickTsField, tsCandidates, List.find?, h1, h2, h3, h4]

/-- C4: the list endpoint scans `timestamp`, `createdAt`, `TimeGenerated`,
`time` in that priority order and picks the first name present in at least
one retrieved record; it then sorts the whole result descending by that
field (`tsRel f`, which compares the field's value with absent values read
as `""`, so records missing the field sort last), leaving the result a
permutation of the retrieval; when no candidate occurs in any record the
retrieval order is returned unchanged. -/
theorem list_sorting (es : List PyDict) :
    (pickTsField es = none →
        (∀ c ∈ tsCandidates, tsPresent es c = false) ∧ sort_entities es = es)
    ∧ (∀ f, pickTsField es = some f →
        ((f = "timestamp" ∧ tsPresent es "timestamp" = true)
          ∨ (f = "createdAt" ∧ tsPresent es "timestamp" = false
              ∧ tsPresent es "createdAt" = true)
          ∨ (f = "TimeGenerated" ∧ tsPresent es "timestamp" = false
              ∧ tsPresent es "createdAt" = false
              ∧ tsPresent es "TimeGenerated" = true)
          ∨ (f = "time" ∧ tsPresent es "timestamp" = false
              ∧ tsPresent es "createdAt" = false
              ∧ tsPresent es "TimeGenerated" = false
              ∧ tsPresent es "time" = true))
        ∧ (sort_entities es).Perm es
        ∧ List.Sorted (tsRel f) (sort_entities es)) := by
  constructor
  · intro h
    have h' := h
    rw [pickTsField_eq] at h'
    split_ifs at h' with h1 h2 h3 h4
    constructor
    · intro c hc
      simp only [tsCandidates, List.mem_cons, List.not_mem_nil, or_false] at hc
      rcases hc with rfl | rfl | rfl | rfl
      · simpa using h1
      · simpa using h2
      · simpa using h3
      · simpa using h4
    · unfold sort_entities
      rw [h]
  · intro f hf
    have hse : sort_entities es = List.insertionSort (tsRel f) es := by
      unfold sort_entities
      rw [hf]
    refine ⟨?_, ?_, ?_⟩
    · rw [pickTsField_eq] at hf
      split_ifs at hf with h1 h2 h3 h4
      · injection hf with e
        subst e
        exact Or.inl ⟨rfl, h1⟩
      · injection hf with e
        subst e
        exact Or.inr (Or.inl ⟨rfl, by simpa using h1, h2⟩)
      · injection hf with e
        subst e
        exact Or.inr (Or.inr (Or.inl ⟨rfl, by simpa using h1, by simpa using h2, h3⟩))
      · injection hf with e
        subst e
        exact Or.inr (Or.inr (Or.inr ⟨rfl, by simpa using h1, by simpa using h2,
          by simpa using h3, h4⟩))
    · rw [hse]
      exact List.perm_insertionSort _ es
    · rw [hse]
      exact List.sorted_insertionSort _ es

/-- C4 (witness): with the spec's example values the handler picks
`timestamp`, returns a permutation sorted descending, and orders
`2024-06-01` before `2024-01-01` with the record lacking the field last. -/
theorem list_sorting_witness :
    pickTsField [[("timestamp", "2024-01-01")], [("timestamp", "2024-06-01")],
        [("deviceId", "d")]] = some "timestamp"
    ∧ (sort_entities [[("timestamp", "2024-01-01")], [("timestamp", "2024-06-01")],
        [("deviceId", "d")]]).Perm
        [[("timestamp", "2024-01-01")], [("timestamp", "2024-06-01")], [("deviceId", "d")]]
    ∧ List.Sorted (tsRel "timestamp")
        (sort_entities [[("timestamp", "2024-01-01")], [("timestamp", "2024-06-01")],
          [("deviceId", "d")]])
    ∧ sort_entities [[("timestamp", "2024-01-01")], [("timestamp", "2024-06-01")],
        [("deviceId", "d")]]
        = [[("timestamp", "2024-06-01")], [("timestamp", "2024-01-01")], [("deviceId", "d")]] :=
  ⟨rfl,
   ((list_sorting [[("timestamp", "2024-01-01")], [("timestamp", "2024-06-01")],
      [("deviceId", "d")]]).2 "timestamp" rfl).2.1,
   ((list_sorting [[("timestamp", "2024-01-01")], [("timestamp", "2024-06-01")],
      [("deviceId", "d")]]).2 "timestamp" rfl).2.2,
   by decide⟩

end App
